import Mathlib

/-!
Verification of the dagster configuration evaluator (`validate_config`) against
its specification.  The evaluator takes a declarative configuration-type schema
(scalars, dicts, selectors, lists, optionals, permissive dicts) and a raw value
tree, and produces either a fully resolved value or a complete, precisely
located set of errors.  The data model and the evaluation algorithm below are a
shallow embedding of that evaluator; the test suite
(`dagster_tests/core_tests/config_types_tests/evaluator_tests/test_validate.py`)
pins down the concrete behaviours we check.
-/

/-- Raw configuration values: the value trees fed to the evaluator.  Mappings
are represented as ordered association lists, sequences as lists. -/
inductive ConfigValue where
  | null
  | int (n : Int)
  | bool (b : Bool)
  | string (s : String)
  | list (xs : List ConfigValue)
  | dict (entries : List (String × ConfigValue))

/-- The built-in scalar config types (Int, Bool, String). -/
inductive ScalarKind where
  | int
  | bool
  | string
deriving DecidableEq

/-- Modelled from the spec: the canonical `ConfigType` tree produced by the
schema-construction API (the `dagster.core.types.config` module itself is not
part of the sources, only its tests are).  A field declaration wraps a
`ConfigType` with an `is_optional` flag and an optional default value; a field
list is an ordered association list of name/field pairs.  Dict carries its
`permissive` flag; Selector requires exactly one option to be selected;
Optional wraps a type with an optional default. -/
inductive ConfigType where
  | scalar (k : ScalarKind)
  | dict (fields : List (String × Bool × Option ConfigValue × ConfigType)) (permissive : Bool)
  | selector (options : List (String × Bool × Option ConfigValue × ConfigType))
  | list (elem : ConfigType)
  | opt (wrapped : ConfigType) (dflt : Option ConfigValue)

/-- An entry of the evaluation stack: either a path entry (dict/selector field
name) or a list-item entry (integer index), mirroring
`EvaluationStackPathEntry` / `EvaluationStackListItemEntry`. -/
inductive StackEntry where
  | pathEntry (fieldName : String)
  | listItemEntry (listIndex : Nat)
deriving DecidableEq

/-- The closed set of evaluation error reasons
(`DagsterEvaluationErrorReason`). -/
inductive DagsterEvaluationErrorReason where
  | RUNTIME_TYPE_MISMATCH
  | MISSING_REQUIRED_FIELD
  | MISSING_REQUIRED_FIELDS
  | FIELD_NOT_DEFINED
  | FIELDS_NOT_DEFINED
  | SELECTOR_FIELD_ERROR
deriving DecidableEq

/-- Variant-specific error payloads: offending field name (singular), offending
field names (plural, sorted), expected config type together with a string
representation of the bad value, and the list of defined option names for
selector errors. -/
inductive ErrorData where
  | fieldName (name : String)
  | fieldNames (names : List String)
  | typeMismatch (configType : ConfigType) (valueRep : String)
  | definedFields (names : List String)

/-- A single evaluation error: reason, stack snapshot and payload. -/
structure EvaluationError where
  reason : DagsterEvaluationErrorReason
  stack : List StackEntry
  errorData : ErrorData

/-- The result of one validation call: `success`, the resolved `value` (absent
on failure) and the ordered list of errors. -/
structure EvaluationResult where
  success : Bool
  value : Option ConfigValue
  errors : List EvaluationError

/-- Assemble an `EvaluationResult` from the accumulated errors of a frame and
the candidate resolved value: success iff no errors, and the value is only
present on success. -/
def mkResult (errs : List EvaluationError) (v : ConfigValue) : EvaluationResult :=
  ⟨errs.isEmpty, if errs.isEmpty then some v else none, errs⟩

/-- Name of a scalar config type, as rendered in error payloads. -/
def scalarName : ScalarKind → String
  | .int => "Int"
  | .bool => "Bool"
  | .string => "String"

/-- The human-readable name of a config type. -/
def configTypeName : ConfigType → String
  | .scalar k => scalarName k
  | .dict _ _ => "Dict"
  | .selector _ => "Selector"
  | .list _ => "List"
  | .opt _ _ => "Optional"

/-- The scalar type-check predicate: a raw value matches a scalar kind exactly
when it is a scalar literal of that kind. -/
def checkScalar : ScalarKind → ConfigValue → Bool
  | .int, .int _ => true
  | .bool, .bool _ => true
  | .string, .string _ => true
  | _, _ => false

/-- A simple string rendering of a raw value, used in RUNTIME_TYPE_MISMATCH
payloads (scalar leaves render exactly; containers render as summaries). -/
def valueRep : ConfigValue → String
  | .null => "None"
  | .int n => toString n
  | .bool b => if b then "True" else "False"
  | .string s => s
  | .list xs => "list of " ++ toString xs.length ++ " items"
  | .dict m => "dict of " ++ toString m.length ++ " entries"

/-- Association-list lookup by field name (first match wins). -/
def mylookup : List (String × α) → String → Option α
  | [], _ => none
  | (k, x) :: rest, name => if k = name then some x else mylookup rest name

/-- Sort a list of field names ascending, as the evaluator does before
reporting plural field-name errors. -/
def sortNames (ks : List String) : List String :=
  List.insertionSort (fun a b => a ≤ b) ks

/-- The keys of the raw mapping that are not declared in the schema, in
raw-mapping order. -/
def undefinedKeys (declared : List String) (m : List (String × ConfigValue)) : List String :=
  (m.map Prod.fst).filter (fun k => !(declared.contains k))

/-- Modelled from the spec: aggregation of undefined-key errors at one dict
frame — one FIELD_NOT_DEFINED if exactly one key is undefined, one
FIELDS_NOT_DEFINED listing all of them sorted if more than one, no error
object otherwise. -/
def notDefinedErrors (declared : List String) (m : List (String × ConfigValue))
    (stack : List StackEntry) : List EvaluationError :=
  match undefinedKeys declared m with
  | [] => []
  | [k] => [⟨.FIELD_NOT_DEFINED, stack, .fieldName k⟩]
  | ks => [⟨.FIELDS_NOT_DEFINED, stack, .fieldNames (sortNames ks)⟩]

/-- The declared fields that are required (not `is_optional`) and absent from
the raw mapping, in schema declaration order. -/
def missingFieldNames (fields : List (String × Bool × Option ConfigValue × ConfigType))
    (m : List (String × ConfigValue)) : List String :=
  (fields.filter (fun f => !f.2.1 && (mylookup m f.1).isNone)).map Prod.fst

/-- Modelled from the spec: aggregation of missing required fields at one dict
frame — one MISSING_REQUIRED_FIELD if exactly one is missing, one
MISSING_REQUIRED_FIELDS with the sorted names if more than one. -/
def missingFieldsErrors (missing : List String) (stack : List StackEntry) :
    List EvaluationError :=
  match missing with
  | [] => []
  | [f] => [⟨.MISSING_REQUIRED_FIELD, stack, .fieldName f⟩]
  | fs => [⟨.MISSING_REQUIRED_FIELDS, stack, .fieldNames (sortNames fs)⟩]

mutual

/-- Modelled from the spec: the evaluator core `validate_config` (module
`dagster.core.types.config.evaluator.validate`, absent from the sources; only
its test suite is present).  Dispatches on the config-type variant, carrying
the current evaluation stack, and accumulates all errors of a frame: for a
dict, the undefined-keys check, then the missing-required-fields check, then
per-declared-field recursion, never stopping at the first failure category. -/
def validateAt : ConfigType → List StackEntry → ConfigValue → EvaluationResult
  | .scalar k, stack, v =>
    if checkScalar k v then mkResult [] v
    else mkResult [⟨.RUNTIME_TYPE_MISMATCH, stack, .typeMismatch (.scalar k) (valueRep v)⟩] .null
  | .opt wrapped dflt, stack, v =>
    match v with
    | .null => mkResult [] (dflt.getD .null)
    | _ => validateAt wrapped stack v
  | .list elemT, stack, v =>
    match v with
    | .list xs =>
      let results := validateElems elemT stack 0 xs
      mkResult (results.map EvaluationResult.errors).flatten
        (ConfigValue.list (results.map (fun r => r.value.getD .null)))
    | _ =>
      mkResult [⟨.RUNTIME_TYPE_MISMATCH, stack, .typeMismatch (.list elemT) (valueRep v)⟩] .null
  | .dict fields permissive, stack, v =>
    match v with
    | .dict m =>
      let fieldResults := validateFields fields stack m
      let errs :=
        (if permissive then [] else notDefinedErrors (fields.map Prod.fst) m stack)
          ++ missingFieldsErrors (missingFieldNames fields m) stack
          ++ (fieldResults.map (fun p => p.2.errors)).flatten
      mkResult errs (ConfigValue.dict (m.map (fun p =>
        (p.1, match mylookup fieldResults p.1 with
              | some r => r.value.getD .null
              | none => p.2))))
    | _ =>
      mkResult [⟨.RUNTIME_TYPE_MISMATCH, stack,
        .typeMismatch (.dict fields permissive) (valueRep v)⟩] .null
  | .selector options, stack, v =>
    match v with
    | .dict m =>
      match m with
      | [] =>
        match options with
        | [(name, _, dflt, ty)] =>
          let r := validateAt ty (stack ++ [.pathEntry name]) (dflt.getD .null)
          mkResult r.errors (ConfigValue.dict [(name, r.value.getD .null)])
        | _ =>
          mkResult [⟨.SELECTOR_FIELD_ERROR, stack, .definedFields (options.map Prod.fst)⟩] .null
      | [(k, sub)] =>
        match validateSelectedField options stack k sub with
        | some r => mkResult r.errors (ConfigValue.dict [(k, r.value.getD .null)])
        | none => mkResult [⟨.FIELD_NOT_DEFINED, stack, .fieldName k⟩] .null
      | _ =>
        mkResult [⟨.SELECTOR_FIELD_ERROR, stack, .definedFields (options.map Prod.fst)⟩] .null
    | _ =>
      mkResult [⟨.RUNTIME_TYPE_MISMATCH, stack,
        .typeMismatch (.selector options) (valueRep v)⟩] .null
termination_by t _ _ => (sizeOf t, 0)

/-- Modelled from the spec: per-element validation of a list value, appending a
list-item stack entry carrying each element's integer index. -/
def validateElems : ConfigType → List StackEntry → Nat → List ConfigValue →
    List EvaluationResult
  | _, _, _, [] => []
  | elemT, stack, i, x :: xs =>
    validateAt elemT (stack ++ [.listItemEntry i]) x :: validateElems elemT stack (i + 1) xs
termination_by t _ _ xs => (sizeOf t, xs.length + 1)

/-- Modelled from the spec: per-declared-field recursion of a dict frame, in
schema declaration order, pushing a path entry for each present field and
skipping absent ones (absence is handled by the missing-fields check). -/
def validateFields : List (String × Bool × Option ConfigValue × ConfigType) →
    List StackEntry → List (String × ConfigValue) → List (String × EvaluationResult)
  | [], _, _ => []
  | (name, _, _, ty) :: rest, stack, m =>
    (match mylookup m name with
     | some sub => [(name, validateAt ty (stack ++ [.pathEntry name]) sub)]
     | none => []) ++ validateFields rest stack m
termination_by fs _ _ => (sizeOf fs, 0)

/-- Modelled from the spec: selector branch lookup — find the declared option
matching the single present key and validate its value with a path entry for
that key pushed; `none` when the key is not a declared option. -/
def validateSelectedField : List (String × Bool × Option ConfigValue × ConfigType) →
    List StackEntry → String → ConfigValue → Option EvaluationResult
  | [], _, _, _ => none
  | (name, _, _, ty) :: rest, stack, k, sub =>
    if name = k then some (validateAt ty (stack ++ [.pathEntry k]) sub)
    else validateSelectedField rest stack k sub
termination_by opts _ _ _ => (sizeOf opts, 0)

end

/-- Modelled from the spec: the sole entry point
`validate_config(config_type, config_value)` — evaluate with an empty stack. -/
def validateConfig (t : ConfigType) (v : ConfigValue) : EvaluationResult :=
  validateAt t [] v

/-- The ordered sequence of path-entry names of a stack, skipping list-item
entries, as used by level-scoped error querying. -/
def stackPathNames : List StackEntry → List String
  | [] => []
  | .pathEntry n :: rest => n :: stackPathNames rest
  | .listItemEntry _ :: rest => stackPathNames rest

/-- Boolean equality of name sequences. -/
def namesEq : List String → List String → Bool
  | [], [] => true
  | a :: arest, b :: brest => if a = b then namesEq arest brest else false
  | _, _ => false

/-- The level-scoped query `errors_at_level(*segments)`: the errors whose
stack's ordered path entries (list-item entries skipped) exactly equal the
given segments. -/
def errorsAtLevel (r : EvaluationResult) (segments : List String) : List EvaluationError :=
  r.errors.filter (fun e => namesEq (stackPathNames e.stack) segments)

/-- The schema `Dict(level_one: Field(str))` of the test suite. -/
def SingleLevelDict : ConfigType :=
  .dict [("level_one", false, none, .scalar .string)] false

/-- The nested schema `DoubleLevelDict` of the test suite. -/
def DoubleLevelDict : ConfigType :=
  .dict
    [("level_one", false, none,
      .dict
        [("string_field", false, none, .scalar .string),
         ("int_field", true, some (.int 989), .scalar .int),
         ("bool_field", false, none, .scalar .bool)]
        false)]
    false

/-- The three-level schema `MultiLevelDictType` of the test suite. -/
def MultiLevelDictType : ConfigType :=
  .dict
    [("level_one_string_field", false, none, .scalar .string),
     ("level_two_dict", false, none,
      .dict
        [("level_two_int_field", false, none, .scalar .int),
         ("level_three_dict", false, none,
          .dict [("level_three_string", false, none, .scalar .string)] false)]
        false)]
    false

/-- The selector `Selector(option_one: Field(str), option_two: Field(str))` of
the test suite. -/
def ExampleSelector : ConfigType :=
  .selector
    [("option_one", false, none, .scalar .string),
     ("option_two", false, none, .scalar .string)]


/-- The deep-scalar mismatch input of `test_deep_scalar`. -/
def deepScalarValue : ConfigValue :=
  .dict
    [("level_one_string_field", .string "foo"),
     ("level_two_dict", .dict
       [("level_two_int_field", .int 234234),
        ("level_three_dict", .dict [("level_three_string", .int 123)])])]

/-- The mixed-level error input of `test_deep_mixed_level_errors`: one
root-level undefined field, one missing nested field, one deep type
mismatch. -/
def mixedLevelValue : ConfigValue :=
  .dict
    [("level_one_string_field", .string "foo"),
     ("level_one_not_defined", .string "kjsdkfjd"),
     ("level_two_dict", .dict
       [("level_three_dict", .dict [("level_three_string", .int 123)])])]

/-- The permissive dict schema `PermissiveDict(a_key: Field(str))` of
`test_permissive_dict_with_fields`. -/
def PermissiveWithField : ConfigType :=
  .dict [("a_key", false, none, .scalar .string)] true

theorem mkResult_sound (errs : List EvaluationError) (w : ConfigValue) :
    ((mkResult errs w).success = true ↔ (mkResult errs w).errors = []) ∧
    ((mkResult errs w).success = false → (mkResult errs w).value = none) ∧
    ((mkResult errs w).success = true → ∃ u, (mkResult errs w).value = some u) := by
  cases errs <;> simp [mkResult]

theorem validateAt_sound (t : ConfigType) (stack : List StackEntry) (v : ConfigValue) :
    ((validateAt t stack v).success = true ↔ (validateAt t stack v).errors = []) ∧
    ((validateAt t stack v).success = false → (validateAt t stack v).value = none) ∧
    ((validateAt t stack v).success = true → ∃ u, (validateAt t stack v).value = some u) := by
  cases t with
  | scalar k =>
    by_cases h : checkScalar k v
    · simp only [validateAt, h, if_true]
      exact mkResult_sound _ _
    · simp only [validateAt, h, Bool.false_eq_true, if_false]
      exact mkResult_sound _ _
  | opt wrapped dflt =>
    cases v with
    | null => simp only [validateAt]; exact mkResult_sound _ _
    | int n => simp only [validateAt]; exact validateAt_sound wrapped stack (.int n)
    | bool b => simp only [validateAt]; exact validateAt_sound wrapped stack (.bool b)
    | string s => simp only [validateAt]; exact validateAt_sound wrapped stack (.string s)
    | list xs => simp only [validateAt]; exact validateAt_sound wrapped stack (.list xs)
    | dict m => simp only [validateAt]; exact validateAt_sound wrapped stack (.dict m)
  | list elemT =>
    cases v <;> simp only [validateAt] <;> exact mkResult_sound _ _
  | dict fields permissive =>
    cases v <;> simp only [validateAt] <;> exact mkResult_sound _ _
  | selector options =>
    cases v with
    | dict m =>
      match m with
      | [] =>
        match options with
        | [(name, b, dflt, ty)] => simp only [validateAt]; exact mkResult_sound _ _
        | [] => simp only [validateAt]; exact mkResult_sound _ _
        | p :: q :: rest => simp only [validateAt]; exact mkResult_sound _ _
      | [(k, sub)] =>
        cases h : validateSelectedField options stack k sub with
        | some r => simp only [validateAt, h]; exact mkResult_sound _ _
        | none => simp only [validateAt, h]; exact mkResult_sound _ _
      | p :: q :: rest => simp only [validateAt]; exact mkResult_sound _ _
    | null => simp only [validateAt]; exact mkResult_sound _ _
    | int n => simp only [validateAt]; exact mkResult_sound _ _
    | bool b => simp only [validateAt]; exact mkResult_sound _ _
    | string s => simp only [validateAt]; exact mkResult_sound _ _
    | list xs => simp only [validateAt]; exact mkResult_sound _ _

/-- C8: for every well-typed scalar value, validation succeeds and the returned
value equals the input; for every mistyped scalar value at the root, exactly
one RUNTIME_TYPE_MISMATCH error is produced, with an empty stack, carrying the
scalar's config type and a string representation of the offending value. -/
theorem claim_C8 (k : ScalarKind) (v : ConfigValue) :
    (checkScalar k v = true →
      (validateConfig (.scalar k) v).success = true ∧
      (validateConfig (.scalar k) v).value = some v) ∧
    (checkScalar k v = false →
      (validateConfig (.scalar k) v).success = false ∧
      (validateConfig (.scalar k) v).errors =
        [⟨.RUNTIME_TYPE_MISMATCH, [], .typeMismatch (.scalar k) (valueRep v)⟩]) := by
  constructor
  · intro h
    simp [validateConfig, validateAt, h, mkResult]
  · intro h
    simp [validateConfig, validateAt, h, mkResult]

/-- Witness for C8 at the concrete inputs of `test_parse_scalar_success` and
`test_parse_scalar_failure`. -/
theorem claim_C8_witness :
    ((validateConfig (.scalar .string) (.string "kdjfkdj")).success = true ∧
      (validateConfig (.scalar .string) (.string "kdjfkdj")).value =
        some (.string "kdjfkdj")) ∧
    ((validateConfig (.scalar .string) (.int 2343)).success = false ∧
      (validateConfig (.scalar .string) (.int 2343)).errors =
        [⟨.RUNTIME_TYPE_MISMATCH, [], .typeMismatch (.scalar .string) (valueRep (.int 2343))⟩]) :=
  ⟨(claim_C8 .string (.string "kdjfkdj")).1 (by decide),
   (claim_C8 .string (.int 2343)).2 (by decide)⟩

/-- C9: validation is total — for every config type and every raw value it
returns a result that either succeeds with a resolved value, or fails carrying
at least one error as data (never raised). -/
theorem claim_C9 (t : ConfigType) (v : ConfigValue) :
    ((validateConfig t v).success = true ∧ ∃ w, (validateConfig t v).value = some w) ∨
    ((validateConfig t v).success = false ∧ (validateConfig t v).errors ≠ []) := by
  have h := validateAt_sound t [] v
  simp only [validateConfig]
  cases hs : (validateAt t [] v).success with
  | true => exact Or.inl ⟨rfl, h.2.2 hs⟩
  | false =>
    refine Or.inr ⟨rfl, fun hnil => ?_⟩
    have := h.1.mpr hnil
    rw [this] at hs
    cases hs

/-- Witness for C9 at a concrete selector applied to a scalar value
(`test_example_selector_error_top_level_type`). -/
theorem claim_C9_witness :
    ((validateConfig ExampleSelector (.string "kjsdkf")).success = true ∧
      ∃ w, (validateConfig ExampleSelector (.string "kjsdkf")).value = some w) ∨
    ((validateConfig ExampleSelector (.string "kjsdkf")).success = false ∧
      (validateConfig ExampleSelector (.string "kjsdkf")).errors ≠ []) :=
  claim_C9 ExampleSelector (.string "kjsdkf")

/-- C10: every returned result satisfies the invariant that success holds
exactly when the error list is empty, and a failed result never carries a
partially resolved value. -/
theorem claim_C10 (t : ConfigType) (v : ConfigValue) :
    ((validateConfig t v).success = true ↔ (validateConfig t v).errors = []) ∧
    ((validateConfig t v).success = false → (validateConfig t v).value = none) := by
  have h := validateAt_sound t [] v
  exact ⟨h.1, h.2.1⟩

/-- Witness for C10 at the concrete failing input of
`test_parse_scalar_failure`: the failed result carries no value. -/
theorem claim_C10_witness :
    (validateConfig (.scalar .string) (.int 2343)).value = none :=
  (claim_C10 (.scalar .string) (.int 2343)).2
    (by simp [validateConfig, validateAt, checkScalar, mkResult])

/-- C5: a null value always validates successfully against an Optional-wrapped
type (yielding the default value if present, else null), always fails against
any non-Optional type, and the full matrix of scalar/list/dict nesting
positions, present or absent values, Optional or required, behaves as the test
suite `test_nullable_int` / `test_nullable_list` / `test_nullable_dict`
records. -/
theorem claim_C5 :
    (∀ (t : ConfigType) (dflt : Option ConfigValue) (stack : List StackEntry),
      (validateAt (.opt t dflt) stack .null).success = true ∧
      (validateAt (.opt t dflt) stack .null).value = some (dflt.getD .null)) ∧
    (∀ (t : ConfigType) (stack : List StackEntry),
      (∀ w d, t ≠ ConfigType.opt w d) → (validateAt t stack .null).success = false) ∧
    ((validateConfig (.scalar .int) .null).success = false ∧
     (validateConfig (.scalar .int) (.int 1)).success = true ∧
     (validateConfig (.opt (.scalar .int) none) .null).success = true ∧
     (validateConfig (.opt (.scalar .int) none) (.int 1)).success = true ∧
     (validateConfig (.list (.scalar .int)) .null).success = false ∧
     (validateConfig (.list (.scalar .int)) (.list [.int 1])).success = true ∧
     (validateConfig (.opt (.list (.scalar .int)) none) .null).success = true ∧
     (validateConfig (.opt (.list (.scalar .int)) none) (.list [.int 1])).success = true ∧
     (validateConfig (.list (.scalar .int)) (.list [.null])).success = false ∧
     (validateConfig (.list (.opt (.scalar .int) none)) (.list [.null])).success = true ∧
     (validateConfig (.list (.opt (.scalar .int) none)) .null).success = false ∧
     (validateConfig (.dict [("int_field", false, none, .scalar .int)] false)
        .null).success = false ∧
     (validateConfig (.dict [("int_field", false, none, .scalar .int)] false)
        (.dict [("int_field", .int 1)])).success = true ∧
     (validateConfig (.opt (.dict [("int_field", false, none, .scalar .int)] false) none)
        .null).success = true ∧
     (validateConfig (.opt (.dict [("int_field", false, none, .scalar .int)] false) none)
        (.dict [("int_field", .int 1)])).success = true ∧
     (validateConfig (.dict [("int_field", false, none, .scalar .int)] false)
        (.dict [("int_field", .null)])).success = false ∧
     (validateConfig (.dict [("int_field", false, none, .opt (.scalar .int) none)] false)
        (.dict [("int_field", .null)])).success = true ∧
     (validateConfig (.dict [("int_field", false, none, .opt (.scalar .int) none)] false)
        .null).success = false) := by
  refine ⟨?_, ?_, ?_⟩
  · intro t dflt stack
    simp [validateAt, mkResult]
  · intro t stack h
    cases t with
    | scalar k => cases k <;> simp [validateAt, checkScalar, mkResult]
    | dict fields permissive => simp [validateAt, mkResult]
    | selector options => simp [validateAt, mkResult]
    | list elemT => simp [validateAt, mkResult]
    | opt w d => exact absurd rfl (h w d)
  · simp +decide [validateConfig, validateAt, validateElems, validateFields, mkResult,
      checkScalar, mylookup, notDefinedErrors, undefinedKeys, missingFieldNames,
      missingFieldsErrors, valueRep]

/-- Witness for C5: a null value against `Optional[int]` succeeds with a null
value, and against bare `int` (not an Optional wrapper) fails. -/
theorem claim_C5_witness :
    ((validateAt (.opt (.scalar .int) none) [] .null).success = true ∧
      (validateAt (.opt (.scalar .int) none) [] .null).value = some ((none : Option ConfigValue).getD .null)) ∧
    (validateAt (.scalar .int) [] .null).success = false :=
  ⟨claim_C5.1 (.scalar .int) none [],
   claim_C5.2.1 (.scalar .int) [] (fun _ _ h => ConfigType.noConfusion h)⟩

theorem namesEq_iff (a b : List String) : namesEq a b = true ↔ a = b := by
  induction a generalizing b with
  | nil => cases b <;> simp [namesEq]
  | cons x xs ih =>
    cases b with
    | nil => simp [namesEq]
    | cons y ys =>
      by_cases h : x = y
      · subst h
        simp [namesEq, ih]
      · simp [namesEq, h]

theorem errorsAtLevel_mem (r : EvaluationResult) (segments : List String)
    (e : EvaluationError) :
    e ∈ errorsAtLevel r segments ↔ e ∈ r.errors ∧ stackPathNames e.stack = segments := by
  simp [errorsAtLevel, List.mem_filter, namesEq_iff]


/-- C2: a type mismatch at the innermost scalar of a three-level nested dict
produces exactly one RUNTIME_TYPE_MISMATCH whose stack holds exactly the three
path entries in descent order; `errors_at_level` matches an error exactly when
the ordered path entries of its stack (list-item entries skipped) equal the
given segments, so each intermediate prefix returns empty and the full path
returns exactly that error — and a stack containing a list-item entry matches
with that entry skipped. -/
theorem claim_C2 :
    (∀ (r : EvaluationResult) (segments : List String) (e : EvaluationError),
      e ∈ errorsAtLevel r segments ↔ e ∈ r.errors ∧ stackPathNames e.stack = segments) ∧
    ((validateConfig MultiLevelDictType deepScalarValue).errors =
      [⟨.RUNTIME_TYPE_MISMATCH,
        [.pathEntry "level_two_dict", .pathEntry "level_three_dict",
         .pathEntry "level_three_string"],
        .typeMismatch (.scalar .string) "123"⟩] ∧
     errorsAtLevel (validateConfig MultiLevelDictType deepScalarValue)
        ["level_one_string_field"] = [] ∧
     errorsAtLevel (validateConfig MultiLevelDictType deepScalarValue)
        ["level_two_dict"] = [] ∧
     errorsAtLevel (validateConfig MultiLevelDictType deepScalarValue)
        ["level_two_dict", "level_three_dict"] = [] ∧
     errorsAtLevel (validateConfig MultiLevelDictType deepScalarValue)
        ["level_two_dict", "level_three_dict", "level_three_string"] =
      [⟨.RUNTIME_TYPE_MISMATCH,
        [.pathEntry "level_two_dict", .pathEntry "level_three_dict",
         .pathEntry "level_three_string"],
        .typeMismatch (.scalar .string) "123"⟩]) ∧
    (errorsAtLevel (validateConfig (.dict [("nested_list", false, none, .list (.scalar .int))] false)
        (.dict [("nested_list", .list [.int 1, .string "bar", .int 3])])) ["nested_list"] =
      [⟨.RUNTIME_TYPE_MISMATCH, [.pathEntry "nested_list", .listItemEntry 1],
        .typeMismatch (.scalar .int) "bar"⟩]) := by
  refine ⟨errorsAtLevel_mem, ?_, ?_⟩
  · simp +decide [validateConfig, validateAt, validateFields, mkResult, MultiLevelDictType,
      deepScalarValue, checkScalar, mylookup, notDefinedErrors, undefinedKeys,
      missingFieldNames, missingFieldsErrors, valueRep, errorsAtLevel, stackPathNames, namesEq]
  · simp +decide [validateConfig, validateAt, validateElems, validateFields, mkResult,
      checkScalar, mylookup, notDefinedErrors, undefinedKeys, missingFieldNames,
      missingFieldsErrors, valueRep, errorsAtLevel, stackPathNames, namesEq]

/-- Witness for C2: the single deep error is a member of the full-path query
exactly because its stack's path entries equal that path. -/
theorem claim_C2_witness :
    (⟨.RUNTIME_TYPE_MISMATCH,
      [.pathEntry "level_two_dict", .pathEntry "level_three_dict",
       .pathEntry "level_three_string"],
      .typeMismatch (.scalar .string) "123"⟩ : EvaluationError) ∈
      errorsAtLevel (validateConfig MultiLevelDictType deepScalarValue)
        ["level_two_dict", "level_three_dict", "level_three_string"] :=
  (claim_C2.1 (validateConfig MultiLevelDictType deepScalarValue)
      ["level_two_dict", "level_three_dict", "level_three_string"] _).mpr
    ⟨by simp [claim_C2.2.1.1], by simp [stackPathNames]⟩


/-- C1: within a single dict frame all three error categories accumulate in
one result: the mixed-level input produces exactly three errors, and each is
retrievable independently via `errors_at_level` at its own level — the
undefined key at the root, the missing required field one level down, the type
mismatch at the full path. -/
theorem claim_C1 :
    ((validateConfig MultiLevelDictType mixedLevelValue).errors).length = 3 ∧
    errorsAtLevel (validateConfig MultiLevelDictType mixedLevelValue) [] =
      [⟨.FIELD_NOT_DEFINED, [], .fieldName "level_one_not_defined"⟩] ∧
    errorsAtLevel (validateConfig MultiLevelDictType mixedLevelValue) ["level_two_dict"] =
      [⟨.MISSING_REQUIRED_FIELD, [.pathEntry "level_two_dict"],
        .fieldName "level_two_int_field"⟩] ∧
    errorsAtLevel (validateConfig MultiLevelDictType mixedLevelValue)
        ["level_two_dict", "level_three_dict"] = [] ∧
    errorsAtLevel (validateConfig MultiLevelDictType mixedLevelValue)
        ["level_two_dict", "level_three_dict", "level_three_string"] =
      [⟨.RUNTIME_TYPE_MISMATCH,
        [.pathEntry "level_two_dict", .pathEntry "level_three_dict",
         .pathEntry "level_three_string"],
        .typeMismatch (.scalar .string) "123"⟩] := by
  simp +decide [validateConfig, validateAt, validateFields, mkResult, MultiLevelDictType,
    mixedLevelValue, checkScalar, mylookup, notDefinedErrors, undefinedKeys,
    missingFieldNames, missingFieldsErrors, valueRep, errorsAtLevel, stackPathNames, namesEq]

/-- C3: for a selector applied to a mapping — a single declared key succeeds
with the single-entry mapping of that option to the resolved subvalue; more
than one key yields exactly one SELECTOR_FIELD_ERROR without descending into
any branch (the branch values are arbitrary); zero keys with two declared
options yield exactly one SELECTOR_FIELD_ERROR naming all defined options; a
single undeclared key yields exactly one FIELD_NOT_DEFINED. -/
theorem claim_C3 :
    (∀ s : String,
      (validateConfig ExampleSelector (.dict [("option_one", .string s)])).success = true ∧
      (validateConfig ExampleSelector (.dict [("option_one", .string s)])).value =
        some (.dict [("option_one", .string s)]) ∧
      (validateConfig ExampleSelector (.dict [("option_two", .string s)])).success = true ∧
      (validateConfig ExampleSelector (.dict [("option_two", .string s)])).value =
        some (.dict [("option_two", .string s)])) ∧
    (∀ v1 v2 : ConfigValue,
      (validateConfig ExampleSelector
          (.dict [("option_one", v1), ("option_two", v2)])).errors =
        [⟨.SELECTOR_FIELD_ERROR, [], .definedFields ["option_one", "option_two"]⟩]) ∧
    ((validateConfig ExampleSelector (.dict [])).errors =
      [⟨.SELECTOR_FIELD_ERROR, [], .definedFields ["option_one", "option_two"]⟩]) ∧
    (∀ (k : String) (v : ConfigValue), ¬k = "option_one" → ¬k = "option_two" →
      (validateConfig ExampleSelector (.dict [(k, v)])).errors =
        [⟨.FIELD_NOT_DEFINED, [], .fieldName k⟩]) := by
  refine ⟨?_, ?_, ?_, ?_⟩
  · intro s
    simp +decide [validateConfig, validateAt, validateSelectedField, mkResult,
      ExampleSelector, checkScalar]
  · intro v1 v2
    simp +decide [validateConfig, validateAt, mkResult, ExampleSelector]
  · simp +decide [validateConfig, validateAt, mkResult, ExampleSelector]
  · intro k v h1 h2
    simp [validateConfig, validateAt, validateSelectedField, mkResult, ExampleSelector,
      Ne.symm h1, Ne.symm h2]

/-- Witness for C3 at the concrete inputs of `test_example_selector_success`
and `test_example_selector_wrong_field`. -/
theorem claim_C3_witness :
    (validateConfig ExampleSelector (.dict [("option_one", .string "foo")])).value =
      some (.dict [("option_one", .string "foo")]) ∧
    (validateConfig ExampleSelector (.dict [("nope", .int 234)])).errors =
      [⟨.FIELD_NOT_DEFINED, [], .fieldName "nope"⟩] :=
  ⟨(claim_C3.1 "foo").2.1,
   claim_C3.2.2.2 "nope" (.int 234) (by decide) (by decide)⟩

/-- C4: within one non-permissive dict frame, undefined keys are aggregated
into a single error object (FIELD_NOT_DEFINED naming the key when exactly one,
FIELDS_NOT_DEFINED with the names sorted ascending when more than one), and
missing required fields likewise (MISSING_REQUIRED_FIELD for one,
MISSING_REQUIRED_FIELDS sorted for more) — never one error per name; and the
evaluator's name sort really sorts ascending while keeping exactly the given
names. -/
theorem claim_C4 :
    ((validateConfig DoubleLevelDict (.dict [("level_one", .dict
        [("string_field", .string "skdsjfkdj"), ("int_field", .int 123),
         ("bool_field", .bool true), ("no_field_one", .string "kdjfkd")])])).errors =
      [⟨.FIELD_NOT_DEFINED, [.pathEntry "level_one"], .fieldName "no_field_one"⟩]) ∧
    ((validateConfig DoubleLevelDict (.dict [("level_one", .dict
        [("string_field", .string "skdsjfkdj"), ("int_field", .int 123),
         ("bool_field", .bool true), ("no_field_two", .string "kdjfkd"),
         ("no_field_one", .string "kdjfkd")])])).errors =
      [⟨.FIELDS_NOT_DEFINED, [.pathEntry "level_one"],
        .fieldNames ["no_field_one", "no_field_two"]⟩]) ∧
    ((validateConfig DoubleLevelDict (.dict [("level_one", .dict
        [("string_field", .string "skdsjfkdj")])])).errors =
      [⟨.MISSING_REQUIRED_FIELD, [.pathEntry "level_one"], .fieldName "bool_field"⟩]) ∧
    ((validateConfig DoubleLevelDict (.dict [("level_one", .dict [])])).errors =
      [⟨.MISSING_REQUIRED_FIELDS, [.pathEntry "level_one"],
        .fieldNames ["bool_field", "string_field"]⟩]) ∧
    (∀ ks : List String,
      List.Sorted (fun a b => a ≤ b) (sortNames ks) ∧ List.Perm (sortNames ks) ks) := by
  refine ⟨?_, ?_, ?_, ?_, ?_⟩
  · simp +decide [validateConfig, validateAt, validateFields, mkResult, DoubleLevelDict,
      checkScalar, mylookup, notDefinedErrors, undefinedKeys, missingFieldNames,
      missingFieldsErrors, valueRep]
  · simp +decide [validateConfig, validateAt, validateFields, mkResult, DoubleLevelDict,
      checkScalar, mylookup, notDefinedErrors, undefinedKeys, missingFieldNames,
      missingFieldsErrors, sortNames, List.insertionSort, List.orderedInsert, valueRep]
  · simp +decide [validateConfig, validateAt, validateFields, mkResult, DoubleLevelDict,
      checkScalar, mylookup, notDefinedErrors, undefinedKeys, missingFieldNames,
      missingFieldsErrors, valueRep]
  · simp +decide [validateConfig, validateAt, validateFields, mkResult, DoubleLevelDict,
      checkScalar, mylookup, notDefinedErrors, undefinedKeys, missingFieldNames,
      missingFieldsErrors, sortNames, List.insertionSort, List.orderedInsert, valueRep]
  · intro ks
    exact ⟨List.sorted_insertionSort _ ks, List.perm_insertionSort _ ks⟩


/-- C6: a permissive dict never reports undeclared keys — arbitrary extra keys
(with arbitrary, unvalidated values) pass through into the output value
unchanged — while declared fields keep exactly the missing-field and
type-mismatch rules of the non-permissive dict: on inputs without undeclared
keys the permissive evaluation coincides with the non-permissive one. -/
theorem claim_C6 :
    (∀ m : List (String × ConfigValue),
      (validateConfig (.dict [] true) (.dict m)).success = true ∧
      (validateConfig (.dict [] true) (.dict m)).value = some (.dict m)) ∧
    (∀ (k : String) (xv : ConfigValue) (s : String), ¬k = "a_key" →
      (validateConfig PermissiveWithField (.dict [("a_key", .string s), (k, xv)])).success
        = true ∧
      (validateConfig PermissiveWithField (.dict [("a_key", .string s), (k, xv)])).value
        = some (.dict [("a_key", .string s), (k, xv)])) ∧
    (∀ (k : String) (xv : ConfigValue), ¬k = "a_key" →
      (validateConfig PermissiveWithField (.dict [("a_key", .int 2), (k, xv)])).errors =
        [⟨.RUNTIME_TYPE_MISMATCH, [.pathEntry "a_key"],
          .typeMismatch (.scalar .string) "2"⟩]) ∧
    ((validateConfig PermissiveWithField (.dict [])).errors =
      [⟨.MISSING_REQUIRED_FIELD, [], .fieldName "a_key"⟩]) ∧
    (∀ (fields : List (String × Bool × Option ConfigValue × ConfigType))
        (stack : List StackEntry) (m : List (String × ConfigValue)),
      undefinedKeys (fields.map Prod.fst) m = [] →
      validateAt (.dict fields true) stack (.dict m) =
        validateAt (.dict fields false) stack (.dict m)) := by
  refine ⟨?_, ?_, ?_, ?_, ?_⟩
  · intro m
    simp [validateConfig, validateAt, validateFields, mkResult, mylookup,
      missingFieldNames, missingFieldsErrors]
  · intro k xv s h
    simp [validateConfig, validateAt, validateFields, mkResult, PermissiveWithField,
      checkScalar, mylookup, missingFieldNames, missingFieldsErrors, Ne.symm h]
  · intro k xv h
    simp +decide [validateConfig, validateAt, validateFields, mkResult, PermissiveWithField,
      checkScalar, mylookup, missingFieldNames, missingFieldsErrors, valueRep, Ne.symm h]
  · simp +decide [validateConfig, validateAt, validateFields, mkResult, PermissiveWithField,
      checkScalar, mylookup, missingFieldNames, missingFieldsErrors]
  · intro fields stack m h
    simp [validateAt, notDefinedErrors, h]

/-- Witness for C6 at the concrete inputs of
`test_permissive_dict_with_fields`. -/
theorem claim_C6_witness :
    (validateConfig PermissiveWithField
        (.dict [("a_key", .string "djfkdjkfd"), ("extra_key", .string "kdjkfd")])).value =
      some (.dict [("a_key", .string "djfkdjkfd"), ("extra_key", .string "kdjkfd")]) ∧
    (validateConfig PermissiveWithField (.dict [("a_key", .int 2), ("extra_key", .null)])).errors =
      [⟨.RUNTIME_TYPE_MISMATCH, [.pathEntry "a_key"],
        .typeMismatch (.scalar .string) "2"⟩] ∧
    validateAt (.dict [("a_key", false, none, .scalar .string)] true) []
        (.dict [("a_key", .int 2)]) =
      validateAt (.dict [("a_key", false, none, .scalar .string)] false) []
        (.dict [("a_key", .int 2)]) :=
  ⟨(claim_C6.2.1 "extra_key" (.string "kdjkfd") "djfkdjkfd" (by decide)).2,
   claim_C6.2.2.1 "extra_key" .null (by decide),
   claim_C6.2.2.2.2 [("a_key", false, none, .scalar .string)] [] [("a_key", .int 2)]
     (by decide)⟩

theorem flatten_nils (ns : List α) : (ns.map (fun _ => ([] : List β))).flatten = [] := by
  induction ns with
  | nil => simp
  | cons x xs ih => simp [ih]

theorem validateElems_int_ok (ns : List Int) (stack : List StackEntry) (i : Nat) :
    validateElems (.scalar .int) stack i (ns.map ConfigValue.int) =
      ns.map (fun n => mkResult [] (.int n)) := by
  induction ns generalizing i with
  | nil => simp [validateElems]
  | cons n rest ih => simp [validateElems, validateAt, checkScalar, ih]

/-- C7: a list config type rejects any non-sequence raw value with exactly one
RUNTIME_TYPE_MISMATCH and no descent; each element is validated with a
list-item stack entry carrying its integer index appended; per-element errors
accumulate (two bad elements in separate sub-lists give two errors); and the
resolved value is the ordered sequence of per-element resolved values when
every element succeeds. -/
theorem claim_C7 :
    (∀ ns : List Int,
      (validateConfig (.list (.scalar .int)) (.list (ns.map ConfigValue.int))).success
        = true ∧
      (validateConfig (.list (.scalar .int)) (.list (ns.map ConfigValue.int))).value
        = some (.list (ns.map ConfigValue.int))) ∧
    ((validateConfig (.list (.scalar .string)) (.int 1)).errors =
      [⟨.RUNTIME_TYPE_MISMATCH, [], .typeMismatch (.list (.scalar .string)) "1"⟩]) ∧
    ((validateConfig (.dict [("nested_list", false, none, .list (.scalar .int))] false)
        (.dict [("nested_list", .list [.int 1, .string "bar", .int 3])])).errors =
      [⟨.RUNTIME_TYPE_MISMATCH, [.pathEntry "nested_list", .listItemEntry 1],
        .typeMismatch (.scalar .int) "bar"⟩]) ∧
    ((validateConfig (.list (.scalar .string)) (.list [.string "ok", .int 5, .null])).errors =
      [⟨.RUNTIME_TYPE_MISMATCH, [.listItemEntry 1], .typeMismatch (.scalar .string) "5"⟩,
       ⟨.RUNTIME_TYPE_MISMATCH, [.listItemEntry 2], .typeMismatch (.scalar .string) "None"⟩]) ∧
    (((validateConfig (.dict
          [("nested_list_one", false, none, .list (.scalar .int)),
           ("nested_list_two", false, none, .list (.scalar .string))] false)
        (.dict [("nested_list_one", .string "kjdfkdj"),
                ("nested_list_two", .list [.string "bar", .int 2])])).errors).length = 2) := by
  refine ⟨?_, ?_, ?_, ?_, ?_⟩
  · intro ns
    simp [validateConfig, validateAt, validateElems_int_ok, List.map_map, mkResult,
      Function.comp, flatten_nils]
  · simp +decide [validateConfig, validateAt, mkResult, valueRep]
  · simp +decide [validateConfig, validateAt, validateElems, validateFields, mkResult,
      checkScalar, mylookup, notDefinedErrors, undefinedKeys, missingFieldNames,
      missingFieldsErrors, valueRep]
  · simp +decide [validateConfig, validateAt, validateElems, mkResult, checkScalar, valueRep]
  · simp +decide [validateConfig, validateAt, validateElems, validateFields, mkResult,
      checkScalar, mylookup, notDefinedErrors, undefinedKeys, missingFieldNames,
      missingFieldsErrors, valueRep]
